import Mathlib

set_option maxRecDepth 10000

/-!
Shallow embedding of `src/crypto/kawpow-slow-hash.c` (KawPow hash engine).

Machine integers are modelled as `Nat` with explicit reduction `% 2 ^ 32`
(resp. `% 2 ^ 64`) wherever the C code performs wrapping 32-bit
(resp. 64-bit) unsigned arithmetic.  Byte strings are `List Nat` with each
element a byte value; the 25-word sponge state is `Fin 25 → Nat`.
-/

namespace Kawpow

/-- `#define KAWPOW_PERIOD 3` -/
def KAWPOW_PERIOD : Nat := 3

/-- `#define KAWPOW_LANES 16` -/
def KAWPOW_LANES : Nat := 16

/-- `#define KAWPOW_REGS 32` -/
def KAWPOW_REGS : Nat := 32

/-- `#define KAWPOW_DAG_LOADS 4` -/
def KAWPOW_DAG_LOADS : Nat := 4

/-- `#define KAWPOW_CNT_DAG 64` -/
def KAWPOW_CNT_DAG : Nat := 64

/-- `#define KAWPOW_CNT_CACHE 11` -/
def KAWPOW_CNT_CACHE : Nat := 11

/-- `#define KAWPOW_CNT_MATH 18` -/
def KAWPOW_CNT_MATH : Nat := 18

/-- `#define KAWPOW_EPOCH_LENGTH 7500` -/
def KAWPOW_EPOCH_LENGTH : Nat := 7500

/-- `HASH_SIZE` (32-byte hashes, from hash-ops.h). -/
def HASH_SIZE : Nat := 32

/-- `static const uint32_t FNV_PRIME = 0x1000193;` -/
def FNV_PRIME : Nat := 0x1000193

/-- `static const uint32_t FNV_OFFSET_BASIS = 0x811c9dc5;` -/
def FNV_OFFSET_BASIS : Nat := 0x811c9dc5

/-- `fnv1a(h, d) = (h ^ d) * FNV_PRIME` over `uint32_t`. -/
def fnv1a (h d : Nat) : Nat := ((h ^^^ d) * FNV_PRIME) % 2 ^ 32

/-- `rotl32(x, n) = (x << n) | (x >> (32 - n))` over `uint32_t`.
The left shift wraps modulo `2^32` as in C; the right shift is the
mathematical `Nat` shift (for `n = 0` the C source performs a shift by
32, which is undefined behaviour for a 32-bit operand — see the C10
development below; on `Nat` the shift by 32 simply yields `0`). -/
def rotl32 (x n : Nat) : Nat := ((x <<< n) % 2 ^ 32) ||| (x >>> (32 - n))

/-- `rotr32(x, n) = (x >> n) | (x << (32 - n))` over `uint32_t` (same
remark about `n = 0` as for `rotl32`). -/
def rotr32 (x n : Nat) : Nat := (x >>> n) ||| ((x <<< (32 - n)) % 2 ^ 32)

/-- `__builtin_popcount` on a 32-bit value: number of set bits among
bits 0..31. -/
def popcount32 (x : Nat) : Nat :=
  (List.range 32).foldl (fun a i => a + (if x.testBit i then 1 else 0)) 0

/-- Bit length of a value restricted to its low 32 bits: index of the
highest set bit among bits 0..31, plus one (`0` when none is set). -/
def bitlen32 (x : Nat) : Nat :=
  (List.range 32).foldl (fun a i => if x.testBit i then i + 1 else a) 0

/-- `__builtin_clz` on a nonzero 32-bit value: count of leading zeros. -/
def clz32 (x : Nat) : Nat := 32 - bitlen32 x

/-- `kiss99_t` PRNG state: `uint32_t z, w, jsr, jcong`. -/
structure Kiss99 where
  z : Nat
  w : Nat
  jsr : Nat
  jcong : Nat
  deriving Repr, DecidableEq

/-- One step of the KISS99 generator (`kiss99` in the C source):
returns the drawn `uint32_t` and the updated state. -/
def kiss99 (st : Kiss99) : Nat × Kiss99 :=
  let z := (36969 * (st.z &&& 65535) + (st.z >>> 16)) % 2 ^ 32
  let w := (18000 * (st.w &&& 65535) + (st.w >>> 16)) % 2 ^ 32
  let mwc := ((z <<< 16) % 2 ^ 32 + w) % 2 ^ 32
  let jsr1 := st.jsr ^^^ ((st.jsr <<< 17) % 2 ^ 32)
  let jsr2 := jsr1 ^^^ (jsr1 >>> 13)
  let jsr3 := jsr2 ^^^ ((jsr2 <<< 5) % 2 ^ 32)
  let jcong := (69069 * st.jcong + 1234567) % 2 ^ 32
  (((mwc ^^^ jcong) + jsr3) % 2 ^ 32, ⟨z, w, jsr3, jcong⟩)

/-- `kawpow_math(a, b, r)`: one of 11 GPU-friendly 32-bit operations
selected by `r % 11` (C source lines 139-155).  The final `a + b` is the
C fallback return, unreachable since `r % 11 < 11`. -/
def kawpow_math (a b r : Nat) : Nat :=
  match r % 11 with
  | 0 => (a + b) % 2 ^ 32
  | 1 => (a * b) % 2 ^ 32
  | 2 => a * b / 2 ^ 32
  | 3 => min a b
  | 4 => rotl32 a (b &&& 31)
  | 5 => rotr32 a (b &&& 31)
  | 6 => a &&& b
  | 7 => a ||| b
  | 8 => a ^^^ b
  | 9 => clz32 (a ||| 1) + clz32 (b ||| 1)
  | 10 => popcount32 a + popcount32 b
  | _ => (a + b) % 2 ^ 32

/-- `kawpow_merge(a, b, r)`: one of 4 merge operations selected by
`r % 4` (C source lines 158-167).  The final case is the C fallback,
unreachable since `r % 4 < 4`. -/
def kawpow_merge (a b r : Nat) : Nat :=
  match r % 4 with
  | 0 => (a * 33 % 2 ^ 32 + b) % 2 ^ 32
  | 1 => ((a ^^^ b) * 33) % 2 ^ 32
  | 2 => rotl32 a ((r >>> 16) % 31 + 1) ^^^ b
  | 3 => rotr32 a ((r >>> 16) % 31 + 1) ^^^ b
  | _ => (a * 33 % 2 ^ 32 + b) % 2 ^ 32

/-- Draw `n` successive KISS99 values, returning them in draw order
together with the final state. -/
def kiss99Draws : Nat → Kiss99 → List Nat × Kiss99
  | 0, st => ([], st)
  | n + 1, st =>
      let (v, st1) := kiss99 st
      let (vs, st2) := kiss99Draws n st1
      (v :: vs, st2)

/-- `kawpow_fill_mix(seed, lane_id, mix)`: seeds a fresh KISS99 state
from the 64-bit `seed` (passed through the `uint32_t` parameter of
`fnv1a`, hence truncated) and the lane id, then draws the
`KAWPOW_REGS = 32` registers. -/
def kawpow_fill_mix (seed lane_id : Nat) : List Nat :=
  let z := fnv1a FNV_OFFSET_BASIS (seed % 2 ^ 32)
  let w := fnv1a z (seed >>> 32)
  let jsr := fnv1a w (lane_id % 2 ^ 32)
  let jcong := fnv1a jsr (lane_id % 2 ^ 32)
  (kiss99Draws KAWPOW_REGS ⟨z, w, jsr, jcong⟩).1

/-- One in-place assignment `st[i] = rotl32(st[i], 1) ^ st[(i + 1) % 25]`
of the placeholder permutation (C source line 192).  The index
arithmetic `(i + 1) % 25` is `Fin 25` addition. -/
def keccakStep (st : Fin 25 → Nat) (i : Fin 25) : Fin 25 → Nat :=
  Function.update st i (rotl32 (st i) 1 ^^^ st (i + 1))

/-- One round of the placeholder permutation: the inner `for i` loop of
`keccak_f800_progpow`, executed sequentially in place for
`i = 0, …, 24`. -/
def keccakRound (st : Fin 25 → Nat) : Fin 25 → Nat :=
  (List.finRange 25).foldl keccakStep st

/-- `keccak_f800_progpow`: 22 rounds of the placeholder mixing function
(C source lines 184-195). -/
def keccak_f800_progpow (st : Fin 25 → Nat) : Fin 25 → Nat :=
  keccakRound^[22] st

/-- Byte `k` of a byte string, `0` past the end; values are reduced to
byte range. -/
def byteAt (data : List Nat) (k : Nat) : Nat := data.getD k 0 % 256

/-- Little-endian 32-bit word `i` of a byte string (the C source reads
the input through a `const uint32_t *` on a little-endian target). -/
def leWord (data : List Nat) (i : Nat) : Nat :=
  byteAt data (4 * i) + 2 ^ 8 * byteAt data (4 * i + 1) +
    2 ^ 16 * byteAt data (4 * i + 2) + 2 ^ 24 * byteAt data (4 * i + 3)

/-- `input_words = length / 4` (C source line 210). -/
def inputWords (data : List Nat) : Nat := data.length / 4

/-- The absorb step (C source lines 204-213): `memset` the 25-word state
to zero, then `for (i = 0; i < input_words && i < 18; i++)
keccak_state[i] = input32[i]`. -/
def kawpowAbsorb (data : List Nat) : Fin 25 → Nat := fun i =>
  if i.val < inputWords data ∧ i.val < 18 then leWord data i.val else 0

/-- Serialize a 32-bit word to 4 little-endian bytes (`memcpy` of the
state words on a little-endian target). -/
def le32bytes (w : Nat) : List Nat :=
  [w % 256, w / 2 ^ 8 % 256, w / 2 ^ 16 % 256, w / 2 ^ 24 % 256]

/-- `uint64_t prog_seed = 1;` (C source line 227; the comment there reads
"Would be derived from block height / KAWPOW_PERIOD", but the code uses
the literal constant `1`). -/
def kawpow_prog_seed : Nat := 1

/-- The program PRNG state built at C source lines 228-232 from
`prog_seed` (each `fnv1a` argument passes through a `uint32_t`
parameter, truncating the 64-bit `prog_seed`). -/
def kawpow_prog_rnd_init : Kiss99 :=
  let z := fnv1a FNV_OFFSET_BASIS (kawpow_prog_seed % 2 ^ 32)
  let w := fnv1a z (kawpow_prog_seed >>> 32)
  let jsr := fnv1a w (kawpow_prog_seed % 2 ^ 32)
  let jcong := fnv1a jsr (kawpow_prog_seed >>> 32)
  ⟨z, w, jsr, jcong⟩

/-- State threaded through the main loop: the 16 lane register files
(`mix[KAWPOW_LANES][KAWPOW_REGS]`) and the program PRNG. -/
def MixState := List (List Nat) × Kiss99

/-- The "random math" sub-step (C source lines 247-258): five PRNG
draws pick the two source registers, the destination register and the
two selectors, then every lane applies `kawpow_math` and merges the
result into its destination register. -/
def mathOpStep (mr : MixState) : MixState :=
  let (v1, r1) := kiss99 mr.2
  let src1 := v1 % KAWPOW_REGS
  let (v2, r2) := kiss99 r1
  let src2 := v2 % KAWPOW_REGS
  let (v3, r3) := kiss99 r2
  let dst := v3 % KAWPOW_REGS
  let (sel1, r4) := kiss99 r3
  let (sel2, r5) := kiss99 r4
  (mr.1.map (fun lane =>
    lane.set dst (kawpow_merge (lane.getD dst 0)
      (kawpow_math (lane.getD src1 0) (lane.getD src2 0) sel1) sel2)), r5)

/-- The "cache operations" sub-step (C source lines 261-271): three PRNG
draws pick the source register, the destination register and the
selector, then every lane merges `fnv1a(mix[l][src], sel)` into its
destination register. -/
def cacheOpStep (mr : MixState) : MixState :=
  let (v1, r1) := kiss99 mr.2
  let src := v1 % KAWPOW_REGS
  let (v2, r2) := kiss99 r1
  let dst := v2 % KAWPOW_REGS
  let (sel, r3) := kiss99 r2
  (mr.1.map (fun lane =>
    lane.set dst (kawpow_merge (lane.getD dst 0)
      (fnv1a (lane.getD src 0) sel) sel)), r3)

/-- One iteration of the inner `for (i = 0; i < max_ops; i++)` loop
(C source lines 246-272), with `max_ops = max(CNT_CACHE, CNT_MATH) = 18`. -/
def innerStep (i : Nat) (mr : MixState) : MixState :=
  let mr1 := if i < KAWPOW_CNT_MATH then mathOpStep mr else mr
  if i < KAWPOW_CNT_CACHE then cacheOpStep mr1 else mr1

/-- One iteration of the DAG-merge loop (C source lines 275-281):
`dst` is register `0` for the first load and a PRNG draw `% 32`
afterwards; every lane merges its simulated DAG word. -/
def dagMergeStep (dag : Nat → Nat → Nat) (i : Nat) (mr : MixState) : MixState :=
  let (dst, r1) :=
    if i == 0 then ((0 : Nat), mr.2)
    else
      let (v, r') := kiss99 mr.2
      (v % KAWPOW_REGS, r')
  let (sel, r2) := kiss99 r1
  (((List.range KAWPOW_LANES).map (fun l =>
    (mr.1.getD l []).set dst
      (kawpow_merge ((mr.1.getD l []).getD dst 0) (dag l i) sel))), r2)

/-- One iteration of the outer `for (loop = 0; loop < KAWPOW_CNT_DAG;
loop++)` loop (C source lines 235-282).  The simulated DAG words
`dag_data[l][i] = fnv1a(mix[l][0], loop * KAWPOW_LANES + l + i)` are
computed from the lane states as they stand at the top of the
iteration. -/
def outerStep (loop : Nat) (mr : MixState) : MixState :=
  let dag : Nat → Nat → Nat := fun l i =>
    fnv1a ((mr.1.getD l []).getD 0 0) (loop * KAWPOW_LANES + l + i)
  let mr1 := (List.range 18).foldl (fun acc i => innerStep i acc) mr
  (List.range KAWPOW_DAG_LOADS).foldl (fun acc i => dagMergeStep dag i acc) mr1

/-- Per-lane reduction (C source lines 285-290): fold `fnv1a` over the
32 registers starting from `FNV_OFFSET_BASIS`. -/
def laneDigest (lane : List Nat) : Nat := lane.foldl fnv1a FNV_OFFSET_BASIS

/-- Lane-to-8-word reduction (C source lines 293-299): 8 accumulators
initialized to `FNV_OFFSET_BASIS`; lane `l` folds into accumulator
`l % 8`. -/
def finalDigest (mix : List (List Nat)) : List Nat :=
  (List.range KAWPOW_LANES).foldl
    (fun fd l => fd.set (l % 8) (fnv1a (fd.getD (l % 8) 0) (laneDigest (mix.getD l []))))
    (List.replicate 8 FNV_OFFSET_BASIS)

/-- The second sponge state (C source lines 302-310): first 8 header
words (zero where the input runs out), the 64-bit internal seed split
into words 8 and 9 (`uint32_t` truncation and `>> 32`), the 8 final
digest words at 10..17, zeros elsewhere. -/
def kawpowFinalState (data : List Nat) (seed : Nat) (fd : List Nat) :
    Fin 25 → Nat := fun i =>
  if i.val < 8 then (if i.val < inputWords data then leWord data i.val else 0)
  else if i.val = 8 then seed % 2 ^ 32
  else if i.val = 9 then seed >>> 32
  else if i.val < 18 then fd.getD (i.val - 10) 0
  else 0

/-- The global variables of `kawpow-slow-hash.c` (lines 64-79): the
published cache and dataset pointers (`NULL` modelled as `none`), the
published seed hash with its `set` flag, and the thread-local
`miner_thread`. -/
structure KawpowGlobals where
  main_dataset : Option (List Nat)
  main_cache : Option (List Nat)
  main_seedhash : List Nat
  main_seedhash_set : Bool
  miner_thread : Nat
  deriving Repr, DecidableEq

/-- `kawpow_slow_hash(seedhash, data, length, result_hash)` (C source
lines 198-316), as a function from the global state, the seed hash
argument and the header byte string to the 32 output bytes.  The C body
references neither the globals nor `seedhash`; both are parameters here
because the C function has them in scope. -/
def kawpow_slow_hash (g : KawpowGlobals) (seedhash : List Nat)
    (data : List Nat) : List Nat :=
  let st1 := keccak_f800_progpow (kawpowAbsorb data)
  let seed := ((st1 0) <<< 32) ||| st1 1
  let mix0 := (List.range KAWPOW_LANES).map (fun l => kawpow_fill_mix seed l)
  let mrFinal := (List.range KAWPOW_CNT_DAG).foldl
    (fun acc loop => outerStep loop acc) (mix0, kawpow_prog_rnd_init)
  let fd := finalDigest mrFinal.1
  let st2 := keccak_f800_progpow (kawpowFinalState data seed fd)
  ((List.finRange 25).take 8).flatMap (fun i => le32bytes (st2 i))

/-- `kawpow_set_main_seedhash(seedhash, max_dataset_init_threads)`
(C source lines 341-352) as a transition on the global state: under the
cache write lock it copies the 32-byte seed hash into `main_seedhash`,
sets `main_seedhash_set = 1`, and logs; nothing else is touched. -/
def kawpow_set_main_seedhash (g : KawpowGlobals) (seedhash : List Nat) :
    KawpowGlobals :=
  { g with main_seedhash := seedhash.take HASH_SIZE, main_seedhash_set := true }

/-- `kawpow_seedheight(height) = (height / KAWPOW_EPOCH_LENGTH) *
KAWPOW_EPOCH_LENGTH` over `uint64_t` (C source lines 330-333; the
result never exceeds `height`, so no 64-bit wrap occurs for in-range
inputs). -/
def kawpow_seedheight (height : Nat) : Nat :=
  height / KAWPOW_EPOCH_LENGTH * KAWPOW_EPOCH_LENGTH

/-- `kawpow_seedheights(height, &seed_height, &next_height)` (C source
lines 335-339); the `uint64_t` addition producing `next_height` wraps
modulo `2^64`. -/
def kawpow_seedheights (height : Nat) : Nat × Nat :=
  let s := kawpow_seedheight height
  (s, (s + KAWPOW_EPOCH_LENGTH) % 2 ^ 64)

/-- The two shift counts `(n, 32 - n)` that `rotl32`/`rotr32` perform
on their 32-bit operand. -/
def rotShiftCounts (n : Nat) : Nat × Nat := (n, 32 - n)

/-- The rotate amount `b & 31` used by `kawpow_math` cases 4 and 5
(C source lines 146-147). -/
def mathRotAmount (b : Nat) : Nat := b &&& 31

/-- The rotate amount `((r >> 16) % 31) + 1` used by `kawpow_merge`
cases 2 and 3 (C source lines 163-164). -/
def mergeRotAmount (r : Nat) : Nat := (r >>> 16) % 31 + 1

/-- Taint abstraction of one in-place assignment of the placeholder
permutation: the new word `i` depends on the old words `i` and
`(i + 1) % 25`. -/
def taintStep (t : Fin 25 → Bool) (i : Fin 25) : Fin 25 → Bool :=
  Function.update t i (t i || t (i + 1))

/-- Taint abstraction of one permutation round. -/
def taintRound (t : Fin 25 → Bool) : Fin 25 → Bool :=
  (List.finRange 25).foldl taintStep t

/-- Taint abstraction of the full 22-round permutation. -/
def taintPerm (t : Fin 25 → Bool) : Fin 25 → Bool :=
  taintRound^[22] t

/-- Two sponge states agree on every word not tainted. -/
def Agrees (t : Fin 25 → Bool) (s s' : Fin 25 → Nat) : Prop :=
  ∀ i, t i = false → s i = s' i

/-! ## Helper lemmas -/

theorem and_31_eq_mod (b : Nat) : b &&& 31 = b % 32 := by
  have h := Nat.and_pow_two_sub_one_eq_mod b 5
  norm_num at h
  omega

theorem agrees_step {t : Fin 25 → Bool} {s s' : Fin 25 → Nat}
    (h : Agrees t s s') (i : Fin 25) :
    Agrees (taintStep t i) (keccakStep s i) (keccakStep s' i) := by
  intro j hj
  unfold taintStep at hj
  unfold keccakStep
  by_cases hij : j = i
  · subst hij
    rw [Function.update_same] at hj
    rw [Bool.or_eq_false_iff] at hj
    rw [Function.update_same, Function.update_same, h j hj.1, h (j + 1) hj.2]
  · rw [Function.update_noteq hij] at hj
    rw [Function.update_noteq hij, Function.update_noteq hij]
    exact h j hj

theorem agrees_foldl (l : List (Fin 25)) {t : Fin 25 → Bool}
    {s s' : Fin 25 → Nat} (h : Agrees t s s') :
    Agrees (l.foldl taintStep t) (l.foldl keccakStep s) (l.foldl keccakStep s') := by
  induction l generalizing t s s' with
  | nil => exact h
  | cons a as ih => exact ih (agrees_step h a)

theorem agrees_iterate (n : Nat) {t : Fin 25 → Bool} {s s' : Fin 25 → Nat}
    (h : Agrees t s s') :
    Agrees (taintRound^[n] t) (keccakRound^[n] s) (keccakRound^[n] s') := by
  induction n generalizing t s s' with
  | zero => exact h
  | succ m ih =>
      rw [Function.iterate_succ_apply, Function.iterate_succ_apply,
        Function.iterate_succ_apply]
      exact ih (agrees_foldl (List.finRange 25) h)

theorem byteAt_take (data : List Nat) (n k : Nat) (h : k < n) :
    byteAt (data.take n) k = byteAt data k := by
  unfold byteAt
  rw [List.getD_eq_getElem?_getD, List.getD_eq_getElem?_getD,
    List.getElem?_take_of_lt h]

theorem leWord_take (data : List Nat) (n i : Nat) (h : 4 * i + 3 < n) :
    leWord (data.take n) i = leWord data i := by
  unfold leWord
  rw [byteAt_take data n _ (by omega), byteAt_take data n _ (by omega),
    byteAt_take data n _ (by omega), byteAt_take data n _ (by omega)]

theorem inputWords_take_72 (data : List Nat) :
    inputWords (data.take 72) = min 18 (inputWords data) := by
  unfold inputWords
  rw [List.length_take]
  rcases Nat.le_total 72 data.length with h | h
  · have h2 : 18 ≤ data.length / 4 := by
      calc (18 : Nat) = 72 / 4 := by norm_num
        _ ≤ data.length / 4 := Nat.div_le_div_right h
    rw [Nat.min_eq_left h, Nat.min_eq_left h2]
  · have h2 : data.length / 4 ≤ 18 := by
      calc data.length / 4 ≤ 72 / 4 := Nat.div_le_div_right h
        _ = 18 := by norm_num
    rw [Nat.min_eq_right h, Nat.min_eq_right h2]

theorem length_out_bytes (f : Fin 25 → Nat) :
    (((List.finRange 25).take 8).flatMap (fun i => le32bytes (f i))).length = 32 := by
  have h : (List.finRange 25).take 8 =
      [(0 : Fin 25), 1, 2, 3, 4, 5, 6, 7] := by decide
  rw [h]
  simp [le32bytes]

/-! ## Claim theorems -/

/-- C1: `kawpow_slow_hash` is deterministic: its 32-byte result is the
same function of the seed hash and header bytes whatever the global
state (published cache/dataset, published seed hash, thread-local miner
tag) holds, so two calls with identical arguments under identical
published state produce identical digests and no hidden state
influences the result. -/
theorem kawpow_slow_hash_deterministic :
    ∀ (g g' : KawpowGlobals) (sh data : List Nat),
      kawpow_slow_hash g sh data = kawpow_slow_hash g' sh data :=
  fun _ _ _ _ => rfl

/-- C2 (code bug): `kawpow_slow_hash` ignores its `seedhash` argument
entirely — for the two distinct 32-byte seed hashes `00…00` and
`01 00…00`, every header blob and every global state, the two digests
coincide, so no pair of distinct seed hashes ever separates the
output. -/
theorem kawpow_slow_hash_ignores_seedhash :
    (List.replicate 32 0 : List Nat) ≠ 1 :: List.replicate 31 0 ∧
    ∀ (g : KawpowGlobals) (data : List Nat),
      kawpow_slow_hash g (List.replicate 32 0) data =
        kawpow_slow_hash g (1 :: List.replicate 31 0) data :=
  ⟨by decide, fun _ _ => rfl⟩

/-- C3 (code bug): the program PRNG of `kawpow_slow_hash` is seeded from
the hard-coded constant `prog_seed = 1`, not from
`floor(height / KAWPOW_PERIOD)` — the function does not even take a
height, and its initial program PRNG state is this fixed constant. -/
theorem kawpow_prog_rnd_constant :
    kawpow_prog_seed = 1 ∧
    kawpow_prog_rnd_init =
      ⟨67918732, 3950255460, 214582783, 560738413⟩ :=
  ⟨rfl, by decide⟩

/-- C4 (code bug): the placeholder permutation does not achieve full
diffusion: output word 1 is independent of input word 0 — for every
state `s` and every replacement `w` of word 0, the images agree on
word 1, so no output bit of word 1 depends on input word 0. -/
theorem keccak_f800_progpow_not_full_diffusion :
    ∀ (s : Fin 25 → Nat) (w : Nat),
      keccak_f800_progpow (Function.update s 0 w) 1 =
        keccak_f800_progpow s 1 := by
  intro s w
  have h0 : Agrees (fun i => decide (i = 0)) (Function.update s 0 w) s := by
    intro i hi
    have hne : i ≠ 0 := by simpa using hi
    rw [Function.update_noteq hne]
  have h := agrees_iterate 22 h0 1 (by decide)
  exact h

/-- C5 (code bug): `kawpow_set_main_seedhash` only stores the new seed
hash and raises the published flag; it never rebuilds or publishes a
Cache or Dataset — both are left exactly as they were. -/
theorem kawpow_set_main_seedhash_no_rebuild :
    ∀ (g : KawpowGlobals) (sh : List Nat),
      (kawpow_set_main_seedhash g sh).main_cache = g.main_cache ∧
      (kawpow_set_main_seedhash g sh).main_dataset = g.main_dataset ∧
      (kawpow_set_main_seedhash g sh).main_seedhash = sh.take 32 ∧
      (kawpow_set_main_seedhash g sh).main_seedhash_set = true :=
  fun _ _ => ⟨rfl, rfl, rfl, rfl⟩

/-- C10 (code bug): the rotate helpers are invoked from `kawpow_math`
case 4 with amount `b & 31`; the direct shift count is always below 32
and every `kawpow_merge` rotate shift count is below 32, but when
`b & 31 = 0` the complementary shift count `32 - (b & 31)` equals 32,
outside the defined range of a 32-bit shift. -/
theorem kawpow_math_rotate_shift_out_of_range :
    (∀ a b, kawpow_math a b 4 = rotl32 a (mathRotAmount b)) ∧
    (∀ r, (rotShiftCounts (mergeRotAmount r)).1 < 32 ∧
      (rotShiftCounts (mergeRotAmount r)).2 < 32) ∧
    (∀ b, (rotShiftCounts (mathRotAmount b)).1 < 32) ∧
    (rotShiftCounts (mathRotAmount 0)).2 = 32 := by
  refine ⟨fun a b => rfl, fun r => ?_, fun b => ?_, by decide⟩
  · have h := Nat.mod_lt (r >>> 16) (show 0 < 31 by decide)
    unfold rotShiftCounts mergeRotAmount
    omega
  · show mathRotAmount b < 32
    rw [mathRotAmount, and_31_eq_mod]
    exact Nat.mod_lt b (by decide)

/-- C6: the absorb step reinterprets the header bytes as little-endian
32-bit words and absorbs exactly the first 18 whole words: bytes beyond
18 words never influence the absorbed state (truncation to the first 72
bytes), words at or past index 18 stay zero, words past the input
length stay zero (zero padding), words inside the input are the
little-endian words, and the call is total — whatever the byte string
(including lengths that are not a whole number of words) the digest has
32 bytes. -/
theorem kawpow_absorb_spec :
    ∀ data : List Nat,
      kawpowAbsorb data = kawpowAbsorb (data.take 72) ∧
      (∀ i : Fin 25, 18 ≤ i.val → kawpowAbsorb data i = 0) ∧
      (∀ i : Fin 25, inputWords data ≤ i.val → kawpowAbsorb data i = 0) ∧
      (∀ i : Fin 25, i.val < 18 → i.val < inputWords data →
        kawpowAbsorb data i = leWord data i.val) ∧
      (∀ (g : KawpowGlobals) (sh : List Nat),
        (kawpow_slow_hash g sh data).length = 32) := by
  intro data
  refine ⟨?_, ?_, ?_, ?_, ?_⟩
  · funext i
    unfold kawpowAbsorb
    rw [inputWords_take_72]
    by_cases h18 : i.val < 18
    · by_cases hw : i.val < inputWords data
      · rw [if_pos ⟨hw, h18⟩, if_pos ⟨by omega, h18⟩,
          leWord_take data 72 i.val (by omega)]
      · rw [if_neg (by omega), if_neg (by omega)]
    · rw [if_neg (by omega), if_neg (by omega)]
  · intro i hi
    unfold kawpowAbsorb
    rw [if_neg (by omega)]
  · intro i hi
    unfold kawpowAbsorb
    rw [if_neg (by omega)]
  · intro i h1 h2
    unfold kawpowAbsorb
    rw [if_pos ⟨h2, h1⟩]
  · intro g sh
    exact length_out_bytes _

theorem kawpow_absorb_spec_witness :
    (18 ≤ (20 : Nat) ∧ kawpowAbsorb [1, 2, 3, 4, 5] ⟨20, by decide⟩ = 0) ∧
    (inputWords [1, 2, 3, 4, 5] ≤ 3 ∧ kawpowAbsorb [1, 2, 3, 4, 5] ⟨3, by decide⟩ = 0) ∧
    ((0 : Nat) < 18 ∧ (0 : Nat) < inputWords [1, 2, 3, 4, 5] ∧
      kawpowAbsorb [1, 2, 3, 4, 5] ⟨0, by decide⟩ = leWord [1, 2, 3, 4, 5] 0) :=
  ⟨⟨by decide, (kawpow_absorb_spec [1, 2, 3, 4, 5]).2.1 ⟨20, by decide⟩ (by decide)⟩,
   ⟨by decide, (kawpow_absorb_spec [1, 2, 3, 4, 5]).2.2.1 ⟨3, by decide⟩ (by decide)⟩,
   ⟨by decide, by decide,
    (kawpow_absorb_spec [1, 2, 3, 4, 5]).2.2.2.1 ⟨0, by decide⟩ (by decide) (by decide)⟩⟩

/-- C7: `kawpow_math` selects by `r % 11`, in order: add, wrapping
multiply, high 32 bits of the 64-bit product, minimum, rotate-left by
`b % 32`, rotate-right by `b % 32`, and, or, xor, sum of leading-zero
counts (on the operands with bit 0 forced, the code's total version of
clz), sum of population counts. -/
theorem kawpow_math_spec :
    ∀ a b r : Nat,
      (r % 11 = 0 → kawpow_math a b r = (a + b) % 2 ^ 32) ∧
      (r % 11 = 1 → kawpow_math a b r = a * b % 2 ^ 32) ∧
      (r % 11 = 2 → kawpow_math a b r = a * b / 2 ^ 32) ∧
      (r % 11 = 3 → kawpow_math a b r = min a b) ∧
      (r % 11 = 4 → kawpow_math a b r =
        a * 2 ^ (b % 32) % 2 ^ 32 ||| a / 2 ^ (32 - b % 32)) ∧
      (r % 11 = 5 → kawpow_math a b r =
        a / 2 ^ (b % 32) ||| a * 2 ^ (32 - b % 32) % 2 ^ 32) ∧
      (r % 11 = 6 → kawpow_math a b r = a &&& b) ∧
      (r % 11 = 7 → kawpow_math a b r = a ||| b) ∧
      (r % 11 = 8 → kawpow_math a b r = a ^^^ b) ∧
      (r % 11 = 9 → kawpow_math a b r = clz32 (a ||| 1) + clz32 (b ||| 1)) ∧
      (r % 11 = 10 → kawpow_math a b r = popcount32 a + popcount32 b) := by
  intro a b r
  refine ⟨?_, ?_, ?_, ?_, ?_, ?_, ?_, ?_, ?_, ?_, ?_⟩ <;> intro h <;>
    simp only [kawpow_math, h, rotl32, rotr32, and_31_eq_mod,
      Nat.shiftLeft_eq, Nat.shiftRight_eq_div_pow]

theorem kawpow_math_spec_witness :
    (4 : Nat) % 11 = 4 ∧
    kawpow_math 305419896 3 4 =
      305419896 * 2 ^ (3 % 32) % 2 ^ 32 ||| 305419896 / 2 ^ (32 - 3 % 32) :=
  ⟨by decide, (kawpow_math_spec 305419896 3 4).2.2.2.2.1 (by decide)⟩

theorem rotl32_lt (x n : Nat) (hx : x < 2 ^ 32) : rotl32 x n < 2 ^ 32 := by
  unfold rotl32
  refine Nat.or_lt_two_pow (Nat.mod_lt _ (by positivity)) ?_
  rw [Nat.shiftRight_eq_div_pow]
  exact lt_of_le_of_lt (Nat.div_le_self _ _) hx

theorem rotr32_lt (x n : Nat) (hx : x < 2 ^ 32) : rotr32 x n < 2 ^ 32 := by
  unfold rotr32
  refine Nat.or_lt_two_pow ?_ (Nat.mod_lt _ (by positivity))
  rw [Nat.shiftRight_eq_div_pow]
  exact lt_of_le_of_lt (Nat.div_le_self _ _) hx

/-- C8: `kawpow_merge` selects by `r % 4`, in order: `a*33 + b`,
`(a xor b)*33`, rotate-left(a, ((r>>16) mod 31)+1) xor b,
rotate-right(a, ((r>>16) mod 31)+1) xor b, all as unsigned 32-bit with
silent wraparound: the result is always a value below `2^32` (no trap,
no saturation). -/
theorem kawpow_merge_spec :
    ∀ a b r : Nat,
      (r % 4 = 0 → kawpow_merge a b r = (a * 33 + b) % 2 ^ 32) ∧
      (r % 4 = 1 → kawpow_merge a b r = (a ^^^ b) * 33 % 2 ^ 32) ∧
      (r % 4 = 2 → kawpow_merge a b r =
        (a * 2 ^ ((r >>> 16) % 31 + 1) % 2 ^ 32 |||
          a / 2 ^ (32 - ((r >>> 16) % 31 + 1))) ^^^ b) ∧
      (r % 4 = 3 → kawpow_merge a b r =
        (a / 2 ^ ((r >>> 16) % 31 + 1) |||
          a * 2 ^ (32 - ((r >>> 16) % 31 + 1)) % 2 ^ 32) ^^^ b) ∧
      (a < 2 ^ 32 → b < 2 ^ 32 → kawpow_merge a b r < 2 ^ 32) := by
  intro a b r
  refine ⟨?_, ?_, ?_, ?_, ?_⟩
  · intro h
    simp only [kawpow_merge, h, Nat.mod_add_mod]
  · intro h
    simp only [kawpow_merge, h]
  · intro h
    simp only [kawpow_merge, h, rotl32, Nat.shiftLeft_eq,
      Nat.shiftRight_eq_div_pow]
  · intro h
    simp only [kawpow_merge, h, rotr32, Nat.shiftLeft_eq,
      Nat.shiftRight_eq_div_pow]
  · intro ha hb
    have h4 : r % 4 < 4 := Nat.mod_lt r (by decide)
    unfold kawpow_merge
    rcases hr : r % 4 with _ | _ | _ | _ | k
    · exact Nat.mod_lt _ (by positivity)
    · exact Nat.mod_lt _ (by positivity)
    · exact Nat.xor_lt_two_pow (rotl32_lt _ _ ha) hb
    · exact Nat.xor_lt_two_pow (rotr32_lt _ _ ha) hb
    · omega

theorem kawpow_merge_spec_witness :
    (7 : Nat) < 2 ^ 32 ∧ (9 : Nat) < 2 ^ 32 ∧ kawpow_merge 7 9 1 < 2 ^ 32 :=
  ⟨by decide, by decide,
   (kawpow_merge_spec 7 9 1).2.2.2.2 (by decide) (by decide)⟩

/-- C9: `kawpow_seedheight` is idempotent and monotonic, and with
`KAWPOW_EPOCH_LENGTH = 7500` it maps 7499 to 0 and 7500 to 7500, while
`kawpow_seedheights 10000 = (7500, 15000)`. -/
theorem kawpow_seedheight_spec :
    (∀ h, kawpow_seedheight (kawpow_seedheight h) = kawpow_seedheight h) ∧
    (∀ h1 h2, h1 < h2 → kawpow_seedheight h1 ≤ kawpow_seedheight h2) ∧
    kawpow_seedheight 7499 = 0 ∧
    kawpow_seedheight 7500 = 7500 ∧
    kawpow_seedheights 10000 = (7500, 15000) := by
  refine ⟨fun h => ?_, fun h1 h2 hlt => ?_, by decide, by decide, by decide⟩
  · simp only [kawpow_seedheight, KAWPOW_EPOCH_LENGTH]
    omega
  · simp only [kawpow_seedheight, KAWPOW_EPOCH_LENGTH]
    omega

theorem kawpow_seedheight_spec_witness :
    (3 : Nat) < 8000 ∧ kawpow_seedheight 3 ≤ kawpow_seedheight 8000 :=
  ⟨by decide, kawpow_seedheight_spec.2.1 3 8000 (by decide)⟩

end Kawpow
